import Mathlib

/-!
Verification development for the Gakuya weather bot (`gakuya_bot.py`).

The bot is orchestration glue around three opaque collaborators: a weather
HTTP lookup, a generative-text backend, and a social-platform API.  We embed
the bot's own logic shallowly: Python strings become `List Char`, Python
values subject to truthiness checks become `PyVal`, each fallible external
call becomes an `Option`-valued oracle field of an environment record, and
the observable behaviour of a cycle is a trace of events.
-/

set_option maxRecDepth 100000

/-- A Python scalar value, as far as the bot's truthiness checks care:
`None`, a bool, an int (tweet ids), or a string.  Used for tweet ids and
for values read back from the persisted JSON state file. -/
inductive PyVal where
  | none
  | bool (b : Bool)
  | int (n : Int)
  | str (s : List Char)
deriving DecidableEq

/-- Python truthiness (`if not x:`): `None`, `False`, `0` and `""` are falsy. -/
def PyVal.falsy : PyVal → Bool
  | .none => true
  | .bool b => !b
  | .int n => n == 0
  | .str s => s.isEmpty

/-- The characters Python's `str.strip()` removes (ASCII whitespace). -/
def pyIsSpace (c : Char) : Bool :=
  c == ' ' || c == '\t' || c == '\n' || c == '\r' ||
    c == Char.ofNat 11 || c == Char.ofNat 12

/-- `s.strip()`: drop leading and trailing whitespace. -/
def pyStrip (s : List Char) : List Char :=
  ((s.dropWhile pyIsSpace).reverse.dropWhile pyIsSpace).reverse

/-- The ellipsis marker appended by the truncation step (`"..."`). -/
def ellipsis : List Char := ['.', '.', '.']

/-- Index of the LAST occurrence of `c` in the list, or `none`
(Python's `str.rfind`, with `-1` mapped to `none`). -/
def rfindIdx (c : Char) : List Char → Option Nat
  | [] => Option.none
  | x :: xs =>
    match rfindIdx c xs with
    | Option.some i => Option.some (i + 1)
    | Option.none => if x = c then Option.some 0 else Option.none

/-- The truncation step shared by `generate_weather_post` and
`generate_reply` (`gakuya_bot.py` lines 139-143 / 167-171):
if the text exceeds 280 characters, find the last `' '` in the first 277
characters (`post[:277].rfind(' ')`), cut there (or at exactly 277 if there
is none), and append `"..."`; otherwise return the text unchanged. -/
def truncate (post : List Char) : List Char :=
  if post.length > 280 then
    match rfindIdx ' ' (post.take 277) with
    | Option.some i => post.take i ++ ellipsis
    | Option.none => post.take 277 ++ ellipsis
  else post

/-- The key `"last_tweet_id"` of the persisted JSON state file. -/
def lastTweetIdKey : List Char :=
  ['l', 'a', 's', 't', '_', 't', 'w', 'e', 'e', 't', '_', 'i', 'd']

/-- State of the persisted state file `last_tweet_id.json`, as seen by
`load_last_tweet_id`: the file may be missing, unreadable (`open` raises),
hold malformed JSON (`json.load` raises), hold a JSON object, or hold a
well-formed JSON value that is not an object (`data.get` raises). -/
inductive FileState where
  | missing
  | unreadable
  | malformed
  | parsedObj (kvs : List (List Char × PyVal))
  | parsedOther
deriving DecidableEq

/-- The exception classes the bot's storage path can raise. -/
inductive PyErr where
  | ioError
  | jsonError
  | attributeError
deriving DecidableEq

/-- Python `dict.get(k)`: the value at `k`, or `None` when absent. -/
def dictGet (kvs : List (List Char × PyVal)) (k : List Char) : PyVal :=
  match kvs.find? (fun kv => kv.1 == k) with
  | Option.some kv => kv.2
  | Option.none => .none

/-- The body of the `try:` block of `load_last_tweet_id`
(`gakuya_bot.py` lines 88-93): a missing file returns `None` without
raising; an unreadable or malformed file raises; a parsed object is
queried with `data.get('last_tweet_id')`. -/
def load_attempt : FileState → Except PyErr PyVal
  | .missing => .ok .none
  | .unreadable => .error .ioError
  | .malformed => .error .jsonError
  | .parsedObj kvs => .ok (dictGet kvs lastTweetIdKey)
  | .parsedOther => .error .attributeError

/-- `load_last_tweet_id` (`gakuya_bot.py` lines 87-96): the `try` body,
with every exception caught and converted to `None`. -/
def load_last_tweet_id (fs : FileState) : PyVal :=
  match load_attempt fs with
  | .ok v => v
  | .error _ => .none

/-- Outcome of one attempt to write the state file.  The `try:` body of
`save_last_tweet_id` can raise: if `open(..., 'w')` itself raises, the file
is untouched; if `json.dump` (or the write) raises after the open has
truncated the file, the file is left in whatever partial state the
interrupted write produced.  Both failures are caught by the `except`
clause (logged, non-fatal). -/
inductive SaveResult where
  | ok
  | raisedOnOpen
  | raisedOnWrite (left : FileState)
deriving DecidableEq

/-- `save_last_tweet_id` (`gakuya_bot.py` lines 99-105): attempt to
overwrite the state file with the JSON object `{'last_tweet_id': tid}`.
On success the file holds that object; a raise in `open` leaves the file
unchanged; a raise during the write leaves it in the interrupted state
`left`.  The exception never escapes (the function is total). -/
def save_last_tweet_id (res : SaveResult) (tid : PyVal) (fs : FileState) : FileState :=
  match res with
  | .ok => .parsedObj [(lastTweetIdKey, tid)]
  | .raisedOnOpen => fs
  | .raisedOnWrite left => left

/-- A weather sample: `(temp, description)` as returned by `get_weather`.
The temperature is only ever interpolated into a prompt, never computed
with, so an `Int` stand-in is adequate. -/
structure Weather where
  temp : Int
  description : List Char
deriving DecidableEq

/-- A mention read from the platform: `mention.id`, `mention.user.screen_name`
and `mention.text` are the three fields `check_and_reply` uses. -/
structure Mention where
  mid : PyVal
  username : List Char
  text : List Char
deriving DecidableEq

/-- The opaque external collaborators of one cycle invocation, each
modelled as the outcome it produces at this invocation (`Option.none`
standing for the call raising / failing):
* `getWeather`   — `get_weather()` (`None, None` on failure);
* `genPost`      — the Cohere generation for the weather prompt built from
  a given sample: the first candidate's text, or failure;
* `genReply`     — the Cohere generation for the reply prompt built from a
  given comment;
* `createTweet`  — `client.create_tweet(text=...)`: the new tweet's id;
* `createReply`  — `client.create_tweet(text=..., in_reply_to_tweet_id=...)`;
* `getUsersTweets` — `client.get_users_tweets(...)`: outer `none` = the call
  raised, inner value = `tweets.data` (`none` = no data, else ids in order);
* `file`         — the persisted state file read by `load_last_tweet_id`;
* `mentionsSince` — `api.mentions_timeline(since_id=...)`, or failure;
* `saveResult`   — the outcome of the state-file write, should
  `save_last_tweet_id` be invoked this cycle. -/
structure Env where
  getWeather : Option Weather
  genPost : Weather → Option (List Char)
  genReply : List Char → Option (List Char)
  createTweet : List Char → Option PyVal
  createReply : List Char → PyVal → Option PyVal
  getUsersTweets : Option (Option (List PyVal))
  file : FileState
  mentionsSince : PyVal → Option (List Mention)
  saveResult : SaveResult

/-- `generate_weather_post` (`gakuya_bot.py` lines 123-148), with the
backend call abstracted: on success the candidate text is stripped and
passed through the truncation step; on failure `None`. -/
def generate_weather_post (env : Env) (w : Weather) : Option (List Char) :=
  (env.genPost w).map (fun raw => truncate (pyStrip raw))

/-- `generate_reply` (`gakuya_bot.py` lines 151-176), same shape as
`generate_weather_post` but prompted from the mention's comment. -/
def generate_reply (env : Env) (comment : List Char) : Option (List Char) :=
  (env.genReply comment).map (fun raw => truncate (pyStrip raw))

/-- Observable actions of the two cycles. `publishPost`, `createReply`
attempts and `saveStore` are the externally visible writes; `fetchLatest`,
`loadStore` and `readMentions` are the reads the recovery logic performs. -/
inductive Event where
  | fetchWeather
  | genPostAttempt
  | publishPost (text : List Char)
  | saveStore (tid : PyVal)
  | fetchLatest
  | loadStore
  | readMentions (sinceId : PyVal)
  | genReplyFailed (mentionId : PyVal)
  | replyFailed (mentionId : PyVal) (text : List Char)
  | replied (mentionId : PyVal) (text : List Char)
deriving DecidableEq

/-- Result of one `post_weather_update` invocation: the Python return
value (`None` or the new tweet id) and the trace of actions performed. -/
structure PostResult where
  ret : PyVal
  trace : List Event
deriving DecidableEq

/-- `post_weather_update` (`gakuya_bot.py` lines 179-195): fetch weather
(abort on failure), generate the post (abort on failure), publish (abort
on failure, every exception caught), then persist the new id and return
it.  Each stage that runs leaves an event in the trace. -/
def post_weather_update (env : Env) : PostResult :=
  match env.getWeather with
  | Option.none => ⟨.none, [.fetchWeather]⟩
  | Option.some w =>
    match generate_weather_post env w with
    | Option.none => ⟨.none, [.fetchWeather, .genPostAttempt]⟩
    | Option.some post =>
      match env.createTweet post with
      | Option.none => ⟨.none, [.fetchWeather, .genPostAttempt, .publishPost post]⟩
      | Option.some tid =>
        ⟨tid, [.fetchWeather, .genPostAttempt, .publishPost post, .saveStore tid]⟩

/-- `get_latest_tweet_id` (`gakuya_bot.py` lines 198-211): the id of the
account's most recent post; `None` when the call raises, when the response
carries no data, or when the list of tweets is empty. -/
def get_latest_tweet_id (env : Env) : PyVal :=
  match env.getUsersTweets with
  | Option.none => .none
  | Option.some Option.none => .none
  | Option.some (Option.some []) => .none
  | Option.some (Option.some (t :: _)) => t

/-- The reply text published for a mention: `f"@{username} {reply}"`. -/
def replyText (m : Mention) (reply : List Char) : List Char :=
  '@' :: (m.username ++ ' ' :: reply)

/-- One iteration of the mention loop of `check_and_reply`
(`gakuya_bot.py` lines 230-246): generate a reply (skip the mention on
failure), then attempt to publish it, catching a publish failure. -/
def reply_to_mention (env : Env) (m : Mention) : List Event :=
  match generate_reply env m.text with
  | Option.none => [.genReplyFailed m.mid]
  | Option.some reply =>
    match env.createReply (replyText m reply) m.mid with
    | Option.none => [.replyFailed m.mid (replyText m reply)]
    | Option.some _ => [.replied m.mid (replyText m reply)]

/-- The `try:` block of `check_and_reply` (`gakuya_bot.py` lines 224-248):
read the mentions since the baseline (a raised read is caught and ends the
cycle), then run the loop over every returned mention. -/
def read_and_reply (env : Env) (b : PyVal) : List Event :=
  match env.mentionsSince b with
  | Option.none => [.readMentions b]
  | Option.some ms => .readMentions b :: ms.flatMap (reply_to_mention env)

/-- `check_and_reply` (`gakuya_bot.py` lines 214-248): when the provided
baseline id is falsy, fall back to `get_latest_tweet_id`, then to
`load_last_tweet_id`, and give up when both are falsy; otherwise read and
answer mentions since the resolved baseline. -/
def check_and_reply (env : Env) (last_tweet_id : PyVal) : List Event :=
  if last_tweet_id.falsy then
    if (get_latest_tweet_id env).falsy then
      if (load_last_tweet_id env.file).falsy then [.fetchLatest, .loadStore]
      else .fetchLatest :: .loadStore :: read_and_reply env (load_last_tweet_id env.file)
    else .fetchLatest :: read_and_reply env (get_latest_tweet_id env)
  else read_and_reply env last_tweet_id

/-- Result of one `job()` invocation from `run_bot`: the new value of the
closured `last_tweet_id` (`nonlocal`) and the combined trace. -/
structure JobResult where
  mem : PyVal
  trace : List Event

/-- `job` (`gakuya_bot.py` lines 254-258): run the post cycle, overwrite
the closured in-memory `last_tweet_id` with its return value (whatever the
previous value `_mem` was), then run the reply check on that value. -/
def job (env : Env) (_mem : PyVal) : JobResult :=
  let p := post_weather_update env
  ⟨p.ret, p.trace ++ check_and_reply env p.ret⟩

/-- Effect of one event on the persisted state file: only `saveStore`
(i.e. an invocation of `save_last_tweet_id`) touches it, and its effect is
governed by the write outcome `res`. -/
def applyEvent (res : SaveResult) (fs : FileState) (e : Event) : FileState :=
  match e with
  | .saveStore tid => save_last_tweet_id res tid fs
  | _ => fs

/-- Replay a trace's effect on the persisted state file, with `res` the
outcome of the state-file write attempt recorded in the trace (each of the
bot's traces contains at most one). -/
def applyTrace (res : SaveResult) (tr : List Event) (fs : FileState) : FileState :=
  tr.foldl (applyEvent res) fs

/-- The successfully published replies recorded in a trace, in order:
pairs of (mention id replied to, full published text). -/
def publishedReplies (tr : List Event) : List (PyVal × List Char) :=
  tr.filterMap (fun e =>
    match e with
    | .replied m t => Option.some (m, t)
    | _ => Option.none)

/-- The per-mention outcome of the reply loop: `none` when the mention is
skipped (generation failed) or its publish attempt failed, `some` the
(mention id, published text) pair when the reply went out. -/
def pubOutcome (env : Env) (m : Mention) : Option (PyVal × List Char) :=
  match generate_reply env m.text with
  | Option.none => Option.none
  | Option.some r =>
    match env.createReply (replyText m r) m.mid with
    | Option.none => Option.none
    | Option.some _ => Option.some (m.mid, replyText m r)

/-- Some stage of `post_weather_update` fails before the id is persisted:
the weather fetch, the generation, or the publish attempt. -/
def postFails (env : Env) : Prop :=
  match env.getWeather with
  | Option.none => True
  | Option.some w =>
    match generate_weather_post env w with
    | Option.none => True
    | Option.some p => env.createTweet p = Option.none

/-- Every stage of `post_weather_update` succeeds and the publish returns
the tweet id `tid`. -/
def postSucceedsWith (env : Env) (tid : PyVal) : Prop :=
  ∃ w p, env.getWeather = Option.some w ∧
    generate_weather_post env w = Option.some p ∧
    env.createTweet p = Option.some tid

/-- The environment-derived inputs of module-level startup
(`gakuya_bot.py` lines 33-76): the six `os.getenv` results (each `None`
or a string), and the outcomes of the three fallible initialization
steps that follow the key validation. -/
structure StartupEnv where
  cohereKey : PyVal
  openweatherKey : PyVal
  xApiKey : PyVal
  xApiSecret : PyVal
  xAccessToken : PyVal
  xAccessTokenSecret : PyVal
  cohereInitOk : Bool
  tweepyInitOk : Bool
  getMe : Option PyVal

/-- The distinct `raise` sites of module-level startup. -/
inductive StartupError where
  | missingKeys
  | cohereInitFailed
  | tweepyInitFailed
  | getMeFailed
deriving DecidableEq

/-- `not all([...])` over the six keys (`gakuya_bot.py` line 41):
true when at least one key is falsy (unset or empty). -/
def anyKeyMissing (env : StartupEnv) : Bool :=
  env.cohereKey.falsy || env.openweatherKey.falsy || env.xApiKey.falsy ||
    env.xApiSecret.falsy || env.xAccessToken.falsy || env.xAccessTokenSecret.falsy

/-- Module-level startup (`gakuya_bot.py` lines 33-76): validate the six
keys (raising `ValueError` when any is missing), then initialize the
Cohere client, the Tweepy clients, and fetch the bot's own user id — each
of these re-raises on failure, aborting the process. -/
def startup (env : StartupEnv) : Except StartupError PyVal :=
  if anyKeyMissing env then .error .missingKeys
  else if !env.cohereInitOk then .error .cohereInitFailed
  else if !env.tweepyInitOk then .error .tweepyInitFailed
  else
    match env.getMe with
    | Option.none => .error .getMeFailed
    | Option.some uid => .ok uid

/-- Whether position `i` of `T` holds a whitespace character. -/
def whitespaceAt (T : List Char) (i : Nat) : Bool :=
  match T[i]? with
  | Option.some c => pyIsSpace c
  | Option.none => false

/-- Transcription of the truncation claim's stated property, for a text
`T` with `|T| > 280` and truncation result `R`: `R` has length at most 280
and ends in the ellipsis marker; the part before the marker is a prefix
`T[:k]` of `T` (necessarily with `k ≤ 277`) that ends at or before a
whitespace boundary at or before position 277, or is exactly `T`'s first
277 characters when no such whitespace boundary exists.  "Whitespace" is
Python's notion (`pyIsSpace`), as the spec's wording says "whitespace",
not "space". -/
def truncClaimHolds (T R : List Char) : Bool :=
  decide (R.length ≤ 280) &&
    (List.range 278).any (fun k =>
      R == T.take k ++ ellipsis &&
        ((List.range 278).any (fun b => decide (k ≤ b) && whitespaceAt T b) ||
          (k == 277 &&
            (List.range 277).all (fun j => !whitespaceAt T j))))

/-- An environment in which every external call fails or is empty. -/
def baseEnv : Env where
  getWeather := Option.none
  genPost := fun _ => Option.none
  genReply := fun _ => Option.none
  createTweet := fun _ => Option.none
  createReply := fun _ _ => Option.none
  getUsersTweets := Option.none
  file := .missing
  mentionsSince := fun _ => Option.some []
  saveResult := SaveResult.ok

/-- Text of length 281 whose only whitespace is a newline at index 100:
the truncation code, which looks only for `' '`, ignores it. -/
def newlineText : List Char :=
  List.replicate 100 'a' ++ '\n' :: List.replicate 180 'a'

/-- Text of length 281 with no whitespace at all. -/
def solidText : List Char := List.replicate 281 'a'

/-- A generated weather post short enough to pass through untouched. -/
def shortPost : List Char :=
  ['N', 'a', 'i', 'r', 'o', 'b', 'i', ' ', 'v', 'i', 'b', 'e', 's']

/-- Environment in which every stage of the post cycle succeeds and the
published tweet gets id 7. -/
def envSuccess : Env :=
  { baseEnv with
    getWeather := Option.some ⟨24, ['r', 'a', 'i', 'n']⟩
    genPost := fun _ => Option.some shortPost
    createTweet := fun _ => Option.some (.int 7) }

/-- Environment for the reply-length counterexample: one mention by user
`ab`, the backend returns 281 `x`s (truncated to 280), publishing works. -/
def envReplyLong : Env :=
  { baseEnv with
    genReply := fun _ => Option.some (List.replicate 281 'x')
    mentionsSince := fun _ =>
      Option.some [⟨.int 1, ['a', 'b'], ['h', 'i']⟩]
    createReply := fun _ _ => Option.some (.int 2) }

/-- The text the bot publishes in `envReplyLong`:
`"@ab " ++ (277 'x's) ++ "..."`, 284 characters. -/
def longReplyPublished : List Char :=
  '@' :: (['a', 'b'] ++ ' ' :: (List.replicate 277 'x' ++ ellipsis))

/-- Environment in which the own-latest lookup finds nothing but the
persisted store holds id 42. -/
def envStoreOnly : Env :=
  { baseEnv with
    getUsersTweets := Option.some Option.none
    file := .parsedObj [(lastTweetIdKey, .int 42)] }

/-- The three mentions of the resilience scenario of the reply cycle. -/
def mentionOne : Mention := ⟨.int 11, ['u'], ['o', 'n', 'e']⟩

def mentionTwo : Mention := ⟨.int 12, ['v'], ['t', 'w', 'o']⟩

def mentionThree : Mention := ⟨.int 13, ['w'], ['t', 'h', 'r', 'e', 'e']⟩

/-- Environment for the resilience scenario: three mentions, generation
fails exactly for the second one, publishing always works. -/
def envThreeMentions : Env :=
  { baseEnv with
    mentionsSince := fun _ => Option.some [mentionOne, mentionTwo, mentionThree]
    genReply := fun c =>
      if c = mentionTwo.text then Option.none
      else if c = mentionOne.text then Option.some ['y', 'a']
      else Option.some ['y', 'o']
    createReply := fun _ _ => Option.some (.int 0) }

/-- Startup environment with every key present but the own-user lookup
failing at startup. -/
def envStartupNet : StartupEnv where
  cohereKey := .str ['k']
  openweatherKey := .str ['k']
  xApiKey := .str ['k']
  xApiSecret := .str ['k']
  xAccessToken := .str ['k']
  xAccessTokenSecret := .str ['k']
  cohereInitOk := true
  tweepyInitOk := true
  getMe := Option.none

/-- Startup environment with the Cohere key missing. -/
def envStartupNoKey : StartupEnv :=
  { envStartupNet with cohereKey := .none, getMe := Option.some (.int 3) }

theorem rfindIdx_none {c : Char} {l : List Char} (h : rfindIdx c l = Option.none) :
    ∀ j : Nat, l[j]? ≠ Option.some c := by
  induction l with
  | nil => intro j; simp
  | cons x xs ih =>
    simp only [rfindIdx] at h
    cases hx : rfindIdx c xs with
    | some k => rw [hx] at h; simp at h
    | none =>
      rw [hx] at h
      have hxc : x ≠ c := by
        intro hc; rw [if_pos hc] at h; simp at h
      intro j
      cases j with
      | zero => simpa using hxc
      | succ j => simpa using ih hx j

theorem rfindIdx_some {c : Char} {l : List Char} {i : Nat}
    (h : rfindIdx c l = Option.some i) :
    i < l.length ∧ l[i]? = Option.some c ∧
      ∀ j : Nat, i < j → l[j]? ≠ Option.some c := by
  induction l generalizing i with
  | nil => simp [rfindIdx] at h
  | cons x xs ih =>
    simp only [rfindIdx] at h
    cases hx : rfindIdx c xs with
    | some k =>
      rw [hx] at h
      simp at h
      subst h
      obtain ⟨hk, hget, hlast⟩ := ih hx
      refine ⟨by simpa using hk, by simpa using hget, ?_⟩
      intro j hj
      cases j with
      | zero => omega
      | succ j => simpa using hlast j (by omega)
    | none =>
      rw [hx] at h
      by_cases hxc : x = c
      · rw [if_pos hxc] at h
        simp at h
        subst h
        refine ⟨by simp, by simpa using hxc, ?_⟩
        intro j hj
        cases j with
        | zero => omega
        | succ j => simpa using rfindIdx_none hx j
      · rw [if_neg hxc] at h
        simp at h

theorem truncate_of_le {T : List Char} (h : T.length ≤ 280) : truncate T = T := by
  simp only [truncate, if_neg (by omega : ¬T.length > 280)]

theorem truncate_length_le (T : List Char) : (truncate T).length ≤ 280 := by
  by_cases h : T.length > 280
  · simp only [truncate, if_pos h]
    cases hr : rfindIdx ' ' (T.take 277) with
    | some i =>
      have h1 := (rfindIdx_some hr).1
      simp only [List.length_take] at h1
      simp only [List.length_append, List.length_take, ellipsis, List.length_cons,
        List.length_nil]
      omega
    | none =>
      simp only [List.length_append, List.length_take, ellipsis, List.length_cons,
        List.length_nil]
      omega
  · rw [truncate_of_le (by omega)]; omega

/-- Claim C1, amended ("whitespace boundary" must read "space-character
(`' '`) boundary", which is all the code's `rfind(' ')` looks for): a text
of length at most 280 passes through `truncate` unchanged; a text `T` of
length over 280 is mapped to a string of length at most 280 of the form
`T[:k] ++ "..."`, where either `k < 277` and position `k` of `T` holds a
space and no later position before 277 does (the last space boundary at or
before position 277), or `k = 277` and no position of `T` before 277 holds
a space. -/
theorem truncate_spec (T : List Char) :
    (T.length ≤ 280 → truncate T = T) ∧
    (280 < T.length →
      (truncate T).length ≤ 280 ∧
      ∃ k, k ≤ 277 ∧ truncate T = T.take k ++ ellipsis ∧
        ((k < 277 ∧ T[k]? = Option.some ' ' ∧
            ∀ j : Nat, k < j → j < 277 → T[j]? ≠ Option.some ' ') ∨
          (k = 277 ∧ ∀ j : Nat, j < 277 → T[j]? ≠ Option.some ' '))) := by
  constructor
  · exact fun h => truncate_of_le h
  · intro h
    refine ⟨truncate_length_le T, ?_⟩
    have htake : ∀ j : Nat, j < 277 → (T.take 277)[j]? = T[j]? := by
      intro j hj
      rw [List.getElem?_take, if_pos hj]
    cases hr : rfindIdx ' ' (T.take 277) with
    | some i =>
      obtain ⟨hi, hget, hlast⟩ := rfindIdx_some hr
      simp only [List.length_take] at hi
      have hi' : i < 277 := by omega
      refine ⟨i, by omega, ?_, Or.inl ⟨hi', ?_, ?_⟩⟩
      · simp only [truncate, if_pos (by omega : T.length > 280), hr]
      · rw [htake i hi'] at hget; exact hget
      · intro j hij hj
        have := hlast j hij
        rwa [htake j hj] at this
    | none =>
      have hnone := rfindIdx_none hr
      refine ⟨277, le_refl _, ?_, Or.inr ⟨rfl, ?_⟩⟩
      · simp only [truncate, if_pos (by omega : T.length > 280), hr]
      · intro j hj
        have := hnone j
        rwa [htake j hj] at this

/-- Witness for C1's amended theorem at the 281-character spaceless text:
its truncation is 280 characters long. -/
theorem truncate_spec_witness :
    280 < solidText.length ∧ (truncate solidText).length ≤ 280 :=
  ⟨by decide, ((truncate_spec solidText).2 (by decide)).1⟩

/-- Counterexample to C1 as stated: `newlineText` has length 281 and its
only whitespace is a newline at index 100, which `rfind(' ')` ignores; the
code cuts at exactly position 277, mid-run, so the result neither ends at
or before a whitespace boundary nor is `T`'s first 277 characters in the
absence of a whitespace boundary — the stated property fails. -/
theorem truncate_claim_cex :
    280 < newlineText.length ∧
      truncClaimHolds newlineText (truncate newlineText) = false := by decide

/-- Claim C7: on a missing, unreadable or malformed state file,
`load_last_tweet_id` returns the absent result (`None`) instead of letting
the exception reach its caller (the function is total: the `except` clause
converts every raised error into `None`). -/
theorem load_absent_on_bad_storage :
    load_last_tweet_id FileState.missing = PyVal.none ∧
    load_last_tweet_id FileState.unreadable = PyVal.none ∧
    load_last_tweet_id FileState.malformed = PyVal.none := by
  refine ⟨rfl, rfl, rfl⟩

theorem mem_check_and_reply {env : Env} {last : PyVal} {e : Event}
    (h : e ∈ check_and_reply env last) :
    e = .fetchLatest ∨ e = .loadStore ∨ ∃ b, e ∈ read_and_reply env b := by
  unfold check_and_reply at h
  split_ifs at h
  · simp only [List.mem_cons, List.not_mem_nil, or_false] at h
    rcases h with h | h
    · exact Or.inl h
    · exact Or.inr (Or.inl h)
  · rcases List.mem_cons.mp h with h | h
    · exact Or.inl h
    · rcases List.mem_cons.mp h with h | h
      · exact Or.inr (Or.inl h)
      · exact Or.inr (Or.inr ⟨_, h⟩)
  · rcases List.mem_cons.mp h with h | h
    · exact Or.inl h
    · exact Or.inr (Or.inr ⟨_, h⟩)
  · exact Or.inr (Or.inr ⟨_, h⟩)

theorem replied_mem_read_and_reply {env : Env} {b mid : PyVal} {t : List Char}
    (h : Event.replied mid t ∈ read_and_reply env b) :
    ∃ m reply, t = replyText m reply ∧ reply.length ≤ 280 := by
  unfold read_and_reply at h
  cases hm : env.mentionsSince b with
  | none => simp only [hm] at h; simp at h
  | some ms =>
    simp only [hm] at h
    rcases List.mem_cons.mp h with h | h
    · simp at h
    · obtain ⟨m, _, hmem⟩ := List.mem_flatMap.mp h
      unfold reply_to_mention at hmem
      cases hg : generate_reply env m.text with
      | none => simp only [hg] at hmem; simp at hmem
      | some reply =>
        simp only [hg] at hmem
        cases hc : env.createReply (replyText m reply) m.mid with
        | none => simp only [hc] at hmem; simp at hmem
        | some x =>
          simp only [hc] at hmem
          simp only [List.mem_cons, List.not_mem_nil, or_false, Event.replied.injEq] at hmem
          obtain ⟨raw, _, hrw⟩ := Option.map_eq_some'.mp hg
          refine ⟨m, reply, hmem.2, ?_⟩
          rw [← hrw]
          exact truncate_length_le _

theorem publishPost_mem_post {env : Env} {t : List Char}
    (h : Event.publishPost t ∈ (post_weather_update env).trace) :
    ∃ raw, t = truncate (pyStrip raw) := by
  unfold post_weather_update at h
  cases hw : env.getWeather with
  | none => simp only [hw] at h; simp at h
  | some w =>
    simp only [hw] at h
    cases hg : generate_weather_post env w with
    | none => simp only [hg] at h; simp at h
    | some p =>
      simp only [hg] at h
      obtain ⟨raw, _, hrw⟩ := Option.map_eq_some'.mp hg
      cases hc : env.createTweet p with
      | none =>
        simp only [hc] at h
        simp only [List.mem_cons, List.not_mem_nil, or_false, Event.publishPost.injEq,
          reduceCtorEq, false_or] at h
        exact ⟨raw, by rw [h, ← hrw]⟩
      | some tid =>
        simp only [hc] at h
        simp only [List.mem_cons, List.not_mem_nil, or_false, Event.publishPost.injEq,
          reduceCtorEq, false_or, or_false] at h
        exact ⟨raw, by rw [h, ← hrw]⟩

theorem saveStore_mem_post {env : Env} {tid : PyVal}
    (h : Event.saveStore tid ∈ (post_weather_update env).trace) :
    postSucceedsWith env tid := by
  unfold post_weather_update at h
  cases hw : env.getWeather with
  | none => simp only [hw] at h; simp at h
  | some w =>
    simp only [hw] at h
    cases hg : generate_weather_post env w with
    | none => simp only [hg] at h; simp at h
    | some p =>
      simp only [hg] at h
      cases hc : env.createTweet p with
      | none => simp only [hc] at h; simp at h
      | some tid2 =>
        simp only [hc] at h
        simp only [List.mem_cons, List.not_mem_nil, or_false, Event.saveStore.injEq,
          reduceCtorEq, false_or] at h
        exact ⟨w, p, hw, hg, by rw [hc, h]⟩

theorem saveStore_not_mem_reply_to_mention (env : Env) (m : Mention) (tid : PyVal) :
    Event.saveStore tid ∉ reply_to_mention env m := by
  intro h
  unfold reply_to_mention at h
  cases hg : generate_reply env m.text with
  | none => simp only [hg] at h; simp at h
  | some reply =>
    simp only [hg] at h
    cases hc : env.createReply (replyText m reply) m.mid with
    | none => simp only [hc] at h; simp at h
    | some x => simp only [hc] at h; simp at h

theorem saveStore_not_mem_read_and_reply (env : Env) (b tid : PyVal) :
    Event.saveStore tid ∉ read_and_reply env b := by
  unfold read_and_reply
  cases env.mentionsSince b with
  | none => simp
  | some ms =>
    intro h
    rcases List.mem_cons.mp h with h | h
    · simp at h
    · obtain ⟨m, _, hmem⟩ := List.mem_flatMap.mp h
      exact saveStore_not_mem_reply_to_mention env m tid hmem

theorem saveStore_not_mem_check (env : Env) (last tid : PyVal) :
    Event.saveStore tid ∉ check_and_reply env last := by
  intro h
  rcases mem_check_and_reply h with h | h | ⟨b, h⟩
  · simp at h
  · simp at h
  · exact saveStore_not_mem_read_and_reply env b tid h

theorem applyTrace_eq_of_no_save :
    ∀ (res : SaveResult) (tr : List Event) (fs : FileState),
      (∀ tid, Event.saveStore tid ∉ tr) → applyTrace res tr fs = fs := by
  intro res tr
  induction tr with
  | nil => intro fs _; rfl
  | cons e es ih =>
    intro fs h
    have he : applyEvent res fs e = fs := by
      cases e with
      | saveStore tid => exact absurd (List.mem_cons_self _ _) (h tid)
      | fetchWeather => rfl
      | genPostAttempt => rfl
      | publishPost t => rfl
      | fetchLatest => rfl
      | loadStore => rfl
      | readMentions b => rfl
      | genReplyFailed m => rfl
      | replyFailed m t => rfl
      | replied m t => rfl
    simp only [applyTrace, List.foldl_cons, he]
    exact ih fs (fun tid hm => h tid (List.mem_cons_of_mem _ hm))

theorem applyTrace_append (res : SaveResult) (a b : List Event) (fs : FileState) :
    applyTrace res (a ++ b) fs = applyTrace res b (applyTrace res a fs) := by
  simp [applyTrace, List.foldl_append]

theorem publishedReplies_reply_to_mention (env : Env) (m : Mention) :
    publishedReplies (reply_to_mention env m) = (pubOutcome env m).toList := by
  unfold reply_to_mention pubOutcome
  cases hg : generate_reply env m.text with
  | none => rfl
  | some reply =>
    show publishedReplies
        (match env.createReply (replyText m reply) m.mid with
          | Option.none => [Event.replyFailed m.mid (replyText m reply)]
          | Option.some _ => [Event.replied m.mid (replyText m reply)]) =
      (match env.createReply (replyText m reply) m.mid with
        | Option.none => Option.none
        | Option.some _ => Option.some (m.mid, replyText m reply)).toList
    cases env.createReply (replyText m reply) m.mid with
    | none => rfl
    | some x => rfl

theorem publishedReplies_flatMap (env : Env) :
    ∀ ms : List Mention,
      publishedReplies (ms.flatMap (reply_to_mention env)) =
        ms.filterMap (pubOutcome env) := by
  intro ms
  induction ms with
  | nil => rfl
  | cons m ms ih =>
    rw [List.flatMap_cons, List.filterMap_cons]
    unfold publishedReplies at ih ⊢
    rw [List.filterMap_append]
    have hm := publishedReplies_reply_to_mention env m
    unfold publishedReplies at hm
    rw [hm, ih]
    cases pubOutcome env m with
    | none => rfl
    | some p => rfl

theorem post_eval_weather_fail {env : Env} (hw : env.getWeather = Option.none) :
    post_weather_update env = ⟨PyVal.none, [Event.fetchWeather]⟩ := by
  unfold post_weather_update
  rw [hw]

theorem post_eval_gen_fail {env : Env} {w : Weather}
    (hw : env.getWeather = Option.some w)
    (hg : generate_weather_post env w = Option.none) :
    post_weather_update env =
      ⟨PyVal.none, [Event.fetchWeather, Event.genPostAttempt]⟩ := by
  unfold post_weather_update
  simp only [hw, hg]

theorem post_eval_publish_fail {env : Env} {w : Weather} {p : List Char}
    (hw : env.getWeather = Option.some w)
    (hg : generate_weather_post env w = Option.some p)
    (hc : env.createTweet p = Option.none) :
    post_weather_update env =
      ⟨PyVal.none,
        [Event.fetchWeather, Event.genPostAttempt, Event.publishPost p]⟩ := by
  unfold post_weather_update
  simp only [hw, hg, hc]

theorem post_eval_success {env : Env} {w : Weather} {p : List Char} {tid : PyVal}
    (hw : env.getWeather = Option.some w)
    (hg : generate_weather_post env w = Option.some p)
    (hc : env.createTweet p = Option.some tid) :
    post_weather_update env =
      ⟨tid, [Event.fetchWeather, Event.genPostAttempt, Event.publishPost p,
        Event.saveStore tid]⟩ := by
  unfold post_weather_update
  simp only [hw, hg, hc]

/-- Claim C2, amended: the weather post published by the post cycle is at
most 280 characters whatever the backend returned; a published reply's
generated body is likewise at most 280 characters, but the published reply
text is the body with `"@" ++ username ++ " "` prepended AFTER truncation,
so its total length is `username.length + 2 + body.length` and can exceed
280 (see the counterexample). -/
theorem published_text_bounds (env : Env) :
    (∀ t, Event.publishPost t ∈ (post_weather_update env).trace →
      t.length ≤ 280) ∧
    (∀ last mid t, Event.replied mid t ∈ check_and_reply env last →
      ∃ u body, t = '@' :: (u ++ ' ' :: body) ∧ body.length ≤ 280 ∧
        t.length = u.length + 2 + body.length) := by
  constructor
  · intro t h
    obtain ⟨raw, hr⟩ := publishPost_mem_post h
    rw [hr]
    exact truncate_length_le _
  · intro last mid t h
    rcases mem_check_and_reply h with h | h | ⟨b, h⟩
    · simp at h
    · simp at h
    · obtain ⟨m, reply, ht, hb⟩ := replied_mem_read_and_reply h
      subst ht
      refine ⟨m.username, reply, rfl, hb, ?_⟩
      simp only [replyText, List.length_cons, List.length_append]
      omega

/-- Witness for C2's amended theorem: in the all-success environment the
published weather post appears in the trace and is at most 280 characters. -/
theorem published_text_bounds_witness :
    Event.publishPost shortPost ∈ (post_weather_update envSuccess).trace ∧
      shortPost.length ≤ 280 := by
  have hm : Event.publishPost shortPost ∈ (post_weather_update envSuccess).trace := by
    decide
  exact ⟨hm, (published_text_bounds envSuccess).1 shortPost hm⟩

/-- Counterexample to C2 as stated: with a 281-character generated reply
(truncated to 280) and author handle `ab`, the reply cycle publishes
`"@ab " ++ body`, 284 characters — over the 280-character platform limit. -/
theorem published_reply_overflow_cex :
    Event.replied (PyVal.int 1) longReplyPublished ∈
        check_and_reply envReplyLong (PyVal.int 9) ∧
      280 < longReplyPublished.length := by
  constructor
  · decide
  · decide

/-- Claim C8: the reply cycle performs no write to the persisted last-id
store — replaying its trace over any file state is the identity and no
`saveStore` event occurs in it — and the only modelled operation that does
emit `saveStore` is the post cycle's all-stages-succeeded path. -/
theorem reply_cycle_no_store_write (env : Env) (last : PyVal) (fs : FileState) :
    (∀ res, applyTrace res (check_and_reply env last) fs = fs) ∧
    (∀ tid, Event.saveStore tid ∉ check_and_reply env last) ∧
    (∀ tid, Event.saveStore tid ∈ (post_weather_update env).trace →
      postSucceedsWith env tid) := by
  refine ⟨?_, fun tid => saveStore_not_mem_check env last tid,
    fun tid h => saveStore_mem_post h⟩
  intro res
  exact applyTrace_eq_of_no_save res _ fs (fun tid => saveStore_not_mem_check env last tid)

/-- Witness for C8: in the all-success environment the post cycle's trace
does contain a store write, and that invocation indeed succeeded. -/
theorem reply_cycle_no_store_write_witness :
    Event.saveStore (PyVal.int 7) ∈ (post_weather_update envSuccess).trace ∧
      postSucceedsWith envSuccess (PyVal.int 7) := by
  have hm : Event.saveStore (PyVal.int 7) ∈ (post_weather_update envSuccess).trace := by
    decide
  exact ⟨hm, (reply_cycle_no_store_write envSuccess PyVal.none FileState.missing).2.2 _ hm⟩

/-- Claim C3, amended: a failed post cycle (weather, generation or publish
failure) attempts no save, so the persisted store is identical to its
pre-call value — but the scheduler's in-memory id is NOT retained: `job`
overwrites it with the cycle's return value, which is the absent value
(`None`) on failure.  A successful post cycle overwrites the in-memory id
with the newly published id, and overwrites the store with it exactly when
the state-file write succeeds: a write whose `open` raises leaves the file
unchanged, and a write interrupted mid-dump leaves the file in the
interrupted state — both caught and non-fatal, the in-memory value staying
authoritative per the spec. -/
theorem job_state_update (env : Env) (fs : FileState) (mem : PyVal) :
    (postFails env →
      applyTrace env.saveResult (job env mem).trace fs = fs ∧
        (job env mem).mem = PyVal.none) ∧
    (∀ tid, postSucceedsWith env tid →
      (job env mem).mem = tid ∧
      (env.saveResult = SaveResult.ok →
        applyTrace env.saveResult (job env mem).trace fs =
          FileState.parsedObj [(lastTweetIdKey, tid)]) ∧
      (env.saveResult = SaveResult.raisedOnOpen →
        applyTrace env.saveResult (job env mem).trace fs = fs) ∧
      (∀ left, env.saveResult = SaveResult.raisedOnWrite left →
        applyTrace env.saveResult (job env mem).trace fs = left)) := by
  have hred : ∀ res, applyTrace res (job env mem).trace fs =
      applyTrace res (post_weather_update env).trace fs := by
    intro res
    show applyTrace res ((post_weather_update env).trace ++
      check_and_reply env (post_weather_update env).ret) fs = _
    rw [applyTrace_append]
    exact applyTrace_eq_of_no_save res _ _
      (fun tid => saveStore_not_mem_check env _ tid)
  constructor
  · intro hf
    unfold postFails at hf
    cases hw : env.getWeather with
    | none =>
      have hp := post_eval_weather_fail hw
      exact ⟨by rw [hred, hp]; rfl,
        by show (post_weather_update env).ret = PyVal.none; rw [hp]⟩
    | some w =>
      simp only [hw] at hf
      cases hg : generate_weather_post env w with
      | none =>
        have hp := post_eval_gen_fail hw hg
        exact ⟨by rw [hred, hp]; rfl,
          by show (post_weather_update env).ret = PyVal.none; rw [hp]⟩
      | some p =>
        simp only [hg] at hf
        have hp := post_eval_publish_fail hw hg hf
        exact ⟨by rw [hred, hp]; rfl,
          by show (post_weather_update env).ret = PyVal.none; rw [hp]⟩
  · rintro tid ⟨w, p, hw, hg, hc⟩
    have hp := post_eval_success hw hg hc
    refine ⟨by show (post_weather_update env).ret = tid; rw [hp], ?_, ?_, ?_⟩
    · intro hok
      rw [hred, hp, hok]
      rfl
    · intro hopen
      rw [hred, hp, hopen]
      rfl
    · intro left hwrite
      rw [hred, hp, hwrite]
      rfl

/-- Witness for C3's amended theorem: in the all-success environment
(publish returns id 7, state-file write succeeds) the in-memory id becomes
7 and the store is overwritten with `{'last_tweet_id': 7}`. -/
theorem job_state_update_witness :
    (job envSuccess (PyVal.int 5)).mem = PyVal.int 7 ∧
      applyTrace envSuccess.saveResult (job envSuccess (PyVal.int 5)).trace
          FileState.missing =
        FileState.parsedObj [(lastTweetIdKey, PyVal.int 7)] := by
  have h := (job_state_update envSuccess FileState.missing (PyVal.int 5)).2
    (PyVal.int 7) ⟨⟨24, ['r', 'a', 'i', 'n']⟩, shortPost, rfl, by decide, rfl⟩
  exact ⟨h.1, h.2.1 rfl⟩

/-- Counterexample to C3 as stated: in a failing run starting from
in-memory id 5, the scheduler's in-memory id after the cycle is the absent
value, not its pre-call value 5 — `job` assigns `post_weather_update()`'s
return (here `None`) to the closured `last_tweet_id` unconditionally. -/
theorem job_inmemory_cex :
    postFails baseEnv ∧ (job baseEnv (PyVal.int 5)).mem = PyVal.none ∧
      PyVal.none ≠ PyVal.int 5 :=
  ⟨True.intro, rfl, by decide⟩

/-- Claim C6: the post cycle runs weather fetch, generation, publish and
persist strictly in that order, aborting at the first failing stage and
performing no later stage (the event trace of each failure case stops at
the failed stage and never contains `saveStore`); the cycle is total and
its return value is either the absent value or the id of a publish that
succeeded. -/
theorem post_cycle_stage_order (env : Env) :
    (env.getWeather = Option.none →
      post_weather_update env = ⟨PyVal.none, [Event.fetchWeather]⟩) ∧
    (∀ w, env.getWeather = Option.some w →
      generate_weather_post env w = Option.none →
      post_weather_update env =
        ⟨PyVal.none, [Event.fetchWeather, Event.genPostAttempt]⟩) ∧
    (∀ w p, env.getWeather = Option.some w →
      generate_weather_post env w = Option.some p →
      env.createTweet p = Option.none →
      post_weather_update env =
        ⟨PyVal.none,
          [Event.fetchWeather, Event.genPostAttempt, Event.publishPost p]⟩) ∧
    (∀ w p tid, env.getWeather = Option.some w →
      generate_weather_post env w = Option.some p →
      env.createTweet p = Option.some tid →
      post_weather_update env =
        ⟨tid, [Event.fetchWeather, Event.genPostAttempt, Event.publishPost p,
          Event.saveStore tid]⟩) ∧
    ((post_weather_update env).ret = PyVal.none ∨
      postSucceedsWith env (post_weather_update env).ret) := by
  refine ⟨fun h => post_eval_weather_fail h,
    fun w hw hg => post_eval_gen_fail hw hg,
    fun w p hw hg hc => post_eval_publish_fail hw hg hc,
    fun w p tid hw hg hc => post_eval_success hw hg hc, ?_⟩
  cases hw : env.getWeather with
  | none => exact Or.inl (by rw [post_eval_weather_fail hw])
  | some w =>
    cases hg : generate_weather_post env w with
    | none => exact Or.inl (by rw [post_eval_gen_fail hw hg])
    | some p =>
      cases hc : env.createTweet p with
      | none => exact Or.inl (by rw [post_eval_publish_fail hw hg hc])
      | some tid =>
        refine Or.inr ?_
        rw [post_eval_success hw hg hc]
        exact ⟨w, p, hw, hg, hc⟩

/-- Witness for C6: in the all-failing environment the cycle stops after
the weather fetch. -/
theorem post_cycle_stage_order_witness :
    post_weather_update baseEnv = ⟨PyVal.none, [Event.fetchWeather]⟩ :=
  (post_cycle_stage_order baseEnv).1 rfl

/-- Claim C4: when the baseline id supplied to the reply cycle is absent,
the fallbacks are tried in order with first success winning — the
platform's own-latest lookup first (when it yields a truthy id the store
is not consulted and that id is the baseline), then the persisted store
(when the lookup is falsy and the store holds a truthy `X`, the mentions
read uses `X` as its since-id); when both fall through, the cycle performs
no mention read and publishes no reply. -/
theorem baseline_recovery_order (env : Env) :
    (∀ X : PyVal, (get_latest_tweet_id env).falsy = true →
      load_last_tweet_id env.file = X → X.falsy = false →
      check_and_reply env PyVal.none =
          Event.fetchLatest :: Event.loadStore :: read_and_reply env X ∧
        ∃ rest, read_and_reply env X = Event.readMentions X :: rest) ∧
    ((get_latest_tweet_id env).falsy = false →
      check_and_reply env PyVal.none =
        Event.fetchLatest :: read_and_reply env (get_latest_tweet_id env)) ∧
    ((get_latest_tweet_id env).falsy = true →
      (load_last_tweet_id env.file).falsy = true →
      check_and_reply env PyVal.none = [Event.fetchLatest, Event.loadStore] ∧
      (∀ b, Event.readMentions b ∉ check_and_reply env PyVal.none) ∧
      (∀ mid t, Event.replied mid t ∉ check_and_reply env PyVal.none)) := by
  refine ⟨?_, ?_, ?_⟩
  · intro X h1 h2 h3
    have hc : check_and_reply env PyVal.none =
        Event.fetchLatest :: Event.loadStore :: read_and_reply env X := by
      unfold check_and_reply
      rw [h2, h1, h3]
      rfl
    refine ⟨hc, ?_⟩
    unfold read_and_reply
    cases hm : env.mentionsSince X with
    | none => exact ⟨[], rfl⟩
    | some ms => exact ⟨ms.flatMap (reply_to_mention env), rfl⟩
  · intro h1
    unfold check_and_reply
    rw [h1]
    rfl
  · intro h1 h2
    have hc : check_and_reply env PyVal.none = [Event.fetchLatest, Event.loadStore] := by
      unfold check_and_reply
      rw [h1, h2]
      rfl
    refine ⟨hc, fun b hb => ?_, fun mid t ht => ?_⟩
    · rw [hc] at hb; simp at hb
    · rw [hc] at ht; simp at ht

/-- Witness for C4: own-latest lookup empty, store holding id 42 — the
resolved baseline is 42 and the mentions read uses it. -/
theorem baseline_recovery_order_witness :
    check_and_reply envStoreOnly PyVal.none =
      Event.fetchLatest :: Event.loadStore ::
        read_and_reply envStoreOnly (PyVal.int 42) :=
  ((baseline_recovery_order envStoreOnly).1 (PyVal.int 42)
    (by decide) (by decide) (by decide)).1

/-- Claim C5: the reply cycle attempts every returned mention
independently — the list of successfully published replies is the
pointwise `filterMap` of a per-mention outcome, so one mention's
generation or publish failure cannot affect any other mention — and in the
three-mention scenario where generation fails exactly for the second one,
the replies to the first and third are published. -/
theorem reply_cycle_resilience (env : Env) (b : PyVal) :
    (∀ ms, env.mentionsSince b = Option.some ms →
      publishedReplies (read_and_reply env b) = ms.filterMap (pubOutcome env)) ∧
    (∀ m1 m2 m3 r1 r3, env.mentionsSince b = Option.some [m1, m2, m3] →
      generate_reply env m1.text = Option.some r1 →
      generate_reply env m2.text = Option.none →
      generate_reply env m3.text = Option.some r3 →
      (∃ x, env.createReply (replyText m1 r1) m1.mid = Option.some x) →
      (∃ x, env.createReply (replyText m3 r3) m3.mid = Option.some x) →
      publishedReplies (read_and_reply env b) =
        [(m1.mid, replyText m1 r1), (m3.mid, replyText m3 r3)]) := by
  have key : ∀ ms, env.mentionsSince b = Option.some ms →
      publishedReplies (read_and_reply env b) = ms.filterMap (pubOutcome env) := by
    intro ms hm
    unfold read_and_reply
    simp only [hm]
    have hcons : publishedReplies
        (Event.readMentions b :: ms.flatMap (reply_to_mention env)) =
        publishedReplies (ms.flatMap (reply_to_mention env)) := rfl
    rw [hcons]
    exact publishedReplies_flatMap env ms
  refine ⟨key, ?_⟩
  intro m1 m2 m3 r1 r3 hm hg1 hg2 hg3 hc1 hc3
  obtain ⟨x1, hx1⟩ := hc1
  obtain ⟨x3, hx3⟩ := hc3
  rw [key _ hm]
  have h1 : pubOutcome env m1 = Option.some (m1.mid, replyText m1 r1) := by
    unfold pubOutcome
    simp only [hg1, hx1]
  have h2 : pubOutcome env m2 = Option.none := by
    unfold pubOutcome
    simp only [hg2]
  have h3 : pubOutcome env m3 = Option.some (m3.mid, replyText m3 r3) := by
    unfold pubOutcome
    simp only [hg3, hx3]
  simp [List.filterMap_cons, h1, h2, h3]

/-- Witness for C5 in the concrete three-mention environment: the replies
to the first and third mentions are the published ones. -/
theorem reply_cycle_resilience_witness :
    publishedReplies (read_and_reply envThreeMentions (PyVal.int 9)) =
      [(mentionOne.mid, replyText mentionOne ['y', 'a']),
        (mentionThree.mid, replyText mentionThree ['y', 'o'])] :=
  (reply_cycle_resilience envThreeMentions (PyVal.int 9)).2
    mentionOne mentionTwo mentionThree ['y', 'a'] ['y', 'o']
    (by decide) (by decide) (by decide) (by decide)
    ⟨PyVal.int 0, by decide⟩ ⟨PyVal.int 0, by decide⟩

/-- Claim C10: the reply cycle's recovery chain is keyed on Python
falsiness, not just absence — a baseline of `None`, `0` or `""` is
discarded identically, making the cycle behave exactly as if no id had
been supplied. -/
theorem falsy_baseline_recovery (env : Env) :
    check_and_reply env (PyVal.int 0) = check_and_reply env PyVal.none ∧
    check_and_reply env (PyVal.str []) = check_and_reply env PyVal.none ∧
    (∀ v : PyVal, v.falsy = true →
      check_and_reply env v = check_and_reply env PyVal.none) := by
  have key : ∀ v : PyVal, v.falsy = true →
      check_and_reply env v = check_and_reply env PyVal.none := by
    intro v hv
    unfold check_and_reply
    rw [hv]
    rfl
  exact ⟨key _ (by decide), key _ (by decide), key⟩

/-- Witness for C10: a zero baseline triggers the same recovery as an
absent one in the all-failing environment. -/
theorem falsy_baseline_recovery_witness :
    check_and_reply baseEnv (PyVal.int 0) = check_and_reply baseEnv PyVal.none :=
  (falsy_baseline_recovery baseEnv).2.2 (PyVal.int 0) (by decide)

/-- Claim C9, amended: a missing (or empty) required secret is a fatal
startup error — the process refuses to start — but it is NOT the only
fatal class: a failure initializing the generation client, initializing
the social client, or fetching the bot's own user id at startup also
aborts the process.  Startup fails exactly when one of those four
conditions holds. -/
theorem startup_failure_classes (env : StartupEnv) :
    (anyKeyMissing env = true → startup env = Except.error StartupError.missingKeys) ∧
    ((∃ e, startup env = Except.error e) ↔
      (anyKeyMissing env = true ∨ env.cohereInitOk = false ∨
        env.tweepyInitOk = false ∨ env.getMe = Option.none)) := by
  constructor
  · intro h
    unfold startup
    simp [h]
  · constructor
    · rintro ⟨e, he⟩
      cases h1 : anyKeyMissing env with
      | true => exact Or.inl rfl
      | false =>
        cases h2 : env.cohereInitOk with
        | false => exact Or.inr (Or.inl rfl)
        | true =>
          cases h3 : env.tweepyInitOk with
          | false => exact Or.inr (Or.inr (Or.inl rfl))
          | true =>
            cases h4 : env.getMe with
            | none => exact Or.inr (Or.inr (Or.inr rfl))
            | some uid =>
              exfalso
              unfold startup at he
              simp [h1, h2, h3, h4] at he
    · intro h
      rcases h with h | h | h | h
      · exact ⟨StartupError.missingKeys, by unfold startup; simp [h]⟩
      · cases h1 : anyKeyMissing env with
        | true => exact ⟨StartupError.missingKeys, by unfold startup; simp [h1]⟩
        | false => exact ⟨StartupError.cohereInitFailed, by unfold startup; simp [h1, h]⟩
      · cases h1 : anyKeyMissing env with
        | true => exact ⟨StartupError.missingKeys, by unfold startup; simp [h1]⟩
        | false =>
          cases h2 : env.cohereInitOk with
          | false => exact ⟨StartupError.cohereInitFailed, by unfold startup; simp [h1, h2]⟩
          | true => exact ⟨StartupError.tweepyInitFailed, by unfold startup; simp [h1, h2, h]⟩
      · cases h1 : anyKeyMissing env with
        | true => exact ⟨StartupError.missingKeys, by unfold startup; simp [h1]⟩
        | false =>
          cases h2 : env.cohereInitOk with
          | false => exact ⟨StartupError.cohereInitFailed, by unfold startup; simp [h1, h2]⟩
          | true =>
            cases h3 : env.tweepyInitOk with
            | false => exact ⟨StartupError.tweepyInitFailed, by unfold startup; simp [h1, h2, h3]⟩
            | true => exact ⟨StartupError.getMeFailed, by unfold startup; simp [h1, h2, h3, h]⟩

/-- Witness for C9's amended theorem: with the generation-backend key
unset, startup fails with the missing-keys error. -/
theorem startup_failure_classes_witness :
    startup envStartupNoKey = Except.error StartupError.missingKeys :=
  (startup_failure_classes envStartupNoKey).1 rfl

/-- Counterexample to C9 as stated: with every secret present, a failure
of the startup own-user lookup (`client.get_me()`) is also fatal — missing
configuration is not the only error class that aborts startup. -/
theorem startup_nonconfig_fatal_cex :
    anyKeyMissing envStartupNet = false ∧
      startup envStartupNet = Except.error StartupError.getMeFailed :=
  ⟨rfl, rfl⟩
